import Mathlib

/-!
Verification development for the observability module of the agent-workspace
repository (src/execution/observability.py and src/execution/slack_notifier.py).

Modelling conventions (a shallow embedding of the Python code):
- Python floats and timestamps are modelled as rationals (ℚ).
- Python dicts are modelled as association lists that preserve insertion
  order; updating an existing key replaces its value in place, a new key is
  appended, matching CPython dict semantics for the unique-key lists the
  code builds.
- The single mutual-exclusion threading.Lock of MetricsCollector is modelled
  explicitly as a boolean field; acquiring a lock that is already held by the
  same (only) thread blocks forever, which the embedding represents by the
  fault value PyFault.deadlock.
- A Python exception propagating out of a function is represented by the
  Except error case; side effects performed before the exception are kept in
  the returned state, as in Python.
- Dynamic attribute access on Event objects (getattr) is modelled by a named
  lookup that can fail with PyFault.attributeError, since the code reads an
  attribute name that the class does not define.
-/

namespace Obs

/-- Faults a call can produce: an AttributeError raised by a missing
attribute, or the modelled nontermination of acquiring a held
non-reentrant lock. -/
inductive PyFault where
  | attributeError (attr : String)
  | deadlock
  deriving Repr, DecidableEq

/-- Values that can appear in an event data mapping (Python scalars). -/
inductive PyVal where
  | str (s : String)
  | int (n : Int)
  | float (q : ℚ)
  | bool (b : Bool)
  | none
  deriving Repr, DecidableEq

/-- Python truthiness of int values used by str() below is not needed; this
is str(v) for the scalar values, with floats rendered from the rational
model (exact-decimal rationals render with a trailing .0 when integral,
matching CPython for integral floats). -/
def PyVal.toStr : PyVal → String
  | .str s => s
  | .int n => toString n
  | .float q => if q.den = 1 then toString q.num ++ ".0" else toString q.num ++ "/" ++ toString q.den
  | .bool b => if b then "True" else "False"
  | .none => "None"

/-- isinstance(v, (int, float)) from script_completed: true for int and
float values, and also for bool values, because Python bool is a subclass
of int. -/
def isinstanceIntFloat : PyVal → Bool
  | .int _ => true
  | .float _ => true
  | .bool _ => true
  | _ => false

/-- float(v) for the values accepted by isinstanceIntFloat; bool converts
to 1.0 or 0.0. Other cases are unreachable in the code paths modelled. -/
def pyFloat : PyVal → ℚ
  | .int n => (n : ℚ)
  | .float q => q
  | .bool b => if b then 1 else 0
  | _ => 0

/-- Ordered-dict lookup: value of the first binding of key k. -/
def dictGet {α : Type} (d : List (String × α)) (k : String) : Option α :=
  match d with
  | [] => Option.none
  | (k₀, v) :: rest => if k₀ = k then some v else dictGet rest k

/-- Ordered-dict assignment d[k] = v: replaces the binding in place when the
key exists, appends otherwise (CPython insertion-order semantics). -/
def dictSet {α : Type} (d : List (String × α)) (k : String) (v : α) : List (String × α) :=
  match d with
  | [] => [(k, v)]
  | (k₀, v₀) :: rest => if k₀ = k then (k₀, v) :: rest else (k₀, v₀) :: dictSet rest k v

/-- d.update(e): assign every binding of e into d, in order. -/
def dictUpdate {α : Type} (d e : List (String × α)) : List (String × α) :=
  e.foldl (fun acc kv => dictSet acc kv.1 kv.2) d

/-- d.pop(k, None): the removed value (if any) and the remaining dict. -/
def dictPop {α : Type} (d : List (String × α)) (k : String) :
    Option α × List (String × α) :=
  match d with
  | [] => (Option.none, [])
  | (k₀, v) :: rest =>
      if k₀ = k then (some v, rest)
      else
        let r := dictPop rest k
        (r.1, (k₀, v) :: r.2)

/-! ## MetricsCollector (src/execution/observability.py, lines 93-144) -/

/-- State of a MetricsCollector: the metric series mapping, the counter
mapping, and whether the internal threading.Lock is currently held. -/
structure MetricsCollector where
  metrics : List (String × List ℚ)
  counters : List (String × Int)
  locked : Bool
  deriving Repr, DecidableEq

/-- MetricsCollector(): empty state with the lock free. -/
def MetricsCollector.new : MetricsCollector := ⟨[], [], false⟩

/-- Run a body under the collector lock: acquiring a held non-reentrant
lock blocks forever (modelled as PyFault.deadlock). -/
def MetricsCollector.withLock {α : Type} (c : MetricsCollector)
    (body : MetricsCollector → α × MetricsCollector) :
    Except PyFault (α × MetricsCollector) :=
  if c.locked then .error .deadlock
  else
    let r := body { c with locked := true }
    .ok (r.1, { r.2 with locked := false })

/-- record(name, value): under the lock, create the series if absent, then
append value to it. -/
def MetricsCollector.record (c : MetricsCollector) (name : String) (value : ℚ) :
    Except PyFault MetricsCollector := do
  let r ← c.withLock fun c₁ =>
    let m₁ := if (dictGet c₁.metrics name).isNone then dictSet c₁.metrics name [] else c₁.metrics
    let series := (dictGet m₁ name).getD []
    ((), { c₁ with metrics := dictSet m₁ name (series ++ [value]) })
  pure r.2

/-- increment(name, amount): under the lock, add amount to the counter,
creating it at zero if absent. -/
def MetricsCollector.increment (c : MetricsCollector) (name : String) (amount : Int) :
    Except PyFault MetricsCollector := do
  let r ← c.withLock fun c₁ =>
    ((), { c₁ with counters := dictSet c₁.counters name (((dictGet c₁.counters name).getD 0) + amount) })
  pure r.2

/-- Summary statistics dict returned by get_summary for a nonempty series. -/
structure Summary where
  count : ℕ
  sum : ℚ
  avg : ℚ
  min : ℚ
  max : ℚ
  deriving Repr, DecidableEq

/-- min over a nonempty list as Python computes it (junk 0 on []). -/
def pyMin : List ℚ → ℚ
  | [] => 0
  | v :: rest => rest.foldl min v

/-- max over a nonempty list as Python computes it (junk 0 on []). -/
def pyMax : List ℚ → ℚ
  | [] => 0
  | v :: rest => rest.foldl max v

/-- sum(values) as Python computes it: a left fold from 0. -/
def pySum (vs : List ℚ) : ℚ := vs.foldl (· + ·) 0

/-- get_summary(name): under the lock, the statistics of the series, or
none (the empty dict) when the series is absent or empty. -/
def MetricsCollector.getSummary (c : MetricsCollector) (name : String) :
    Except PyFault (Option Summary) := do
  let r ← c.withLock fun c₁ =>
    let values := (dictGet c₁.metrics name).getD []
    (if values.isEmpty then Option.none else
      some { count := values.length, sum := pySum values,
             avg := pySum values / values.length,
             min := pyMin values, max := pyMax values }, c₁)
  pure r.1

/-- get_counter(name): under the lock, the accumulated value, 0 if absent. -/
def MetricsCollector.getCounter (c : MetricsCollector) (name : String) :
    Except PyFault Int := do
  let r ← c.withLock fun c₁ => ((dictGet c₁.counters name).getD 0, c₁)
  pure r.1

/-- The dict comprehension inside get_all: for each metric key, call
get_summary on the collector WHILE the get_all lock is held. -/
def summariesUnderLock (c : MetricsCollector) :
    List (String × List ℚ) → Except PyFault (List (String × Option Summary))
  | [] => .ok []
  | (k, _) :: rest => do
      let s ← c.getSummary k
      let r ← summariesUnderLock c rest
      pure ((k, s) :: r)

/-- get_all(): acquires the lock and, still holding it, calls get_summary
for every metric key (the nested acquire of the same non-reentrant lock
deadlocks whenever at least one series exists). -/
def MetricsCollector.getAll (c : MetricsCollector) :
    Except PyFault (List (String × Option Summary) × List (String × Int)) :=
  if c.locked then .error .deadlock
  else do
    let cL : MetricsCollector := { c with locked := true }
    let ms ← summariesUnderLock cL cL.metrics
    pure (ms, cL.counters)

/-- reset(): under the lock, clear both mappings. -/
def MetricsCollector.reset (c : MetricsCollector) : Except PyFault MetricsCollector := do
  let r ← c.withLock fun c₁ => ((), { c₁ with metrics := [], counters := [] })
  pure r.2

/-! ## Event model (src/execution/observability.py, lines 37-90) -/

/-- EventType enum, lines 37-55. -/
inductive EventType where
  | DIRECTIVE_STARTED
  | DIRECTIVE_COMPLETED
  | DIRECTIVE_FAILED
  | DIRECTIVE_UPDATED
  | SCRIPT_STARTED
  | SCRIPT_COMPLETED
  | SCRIPT_FAILED
  | TASK_PROGRESS
  | TASK_CHECKPOINT
  | LEARNING_CAPTURED
  | ERROR_RECOVERED
  | SYSTEM_HEALTH
  | METRIC_RECORDED
  deriving Repr, DecidableEq, BEq

/-- The string payload of each EventType member. -/
def EventType.value : EventType → String
  | .DIRECTIVE_STARTED => "directive_started"
  | .DIRECTIVE_COMPLETED => "directive_completed"
  | .DIRECTIVE_FAILED => "directive_failed"
  | .DIRECTIVE_UPDATED => "directive_updated"
  | .SCRIPT_STARTED => "script_started"
  | .SCRIPT_COMPLETED => "script_completed"
  | .SCRIPT_FAILED => "script_failed"
  | .TASK_PROGRESS => "task_progress"
  | .TASK_CHECKPOINT => "task_checkpoint"
  | .LEARNING_CAPTURED => "learning_captured"
  | .ERROR_RECOVERED => "error_recovered"
  | .SYSTEM_HEALTH => "system_health"
  | .METRIC_RECORDED => "metric_recorded"

/-- NotificationLevel enum of slack_notifier.py, lines 23-29; the member
payload is the Slack color string. -/
inductive NotificationLevel where
  | INFO
  | WARNING
  | ERROR
  | SUCCESS
  | DEBUG
  deriving Repr, DecidableEq, BEq

/-- Color payload of each NotificationLevel member. -/
def NotificationLevel.value : NotificationLevel → String
  | .INFO => "#36a64f"
  | .WARNING => "#ffcc00"
  | .ERROR => "#ff0000"
  | .SUCCESS => "#2eb886"
  | .DEBUG => "#808080"

/-- Enum member name, used by Event.to_dict. -/
def NotificationLevel.nameStr : NotificationLevel → String
  | .INFO => "INFO"
  | .WARNING => "WARNING"
  | .ERROR => "ERROR"
  | .SUCCESS => "SUCCESS"
  | .DEBUG => "DEBUG"

/-- Event data mapping. -/
abbrev Dict := List (String × PyVal)

/-- int(q) truncates toward zero, as Python int() does on a float. -/
def pyTrunc (q : ℚ) : Int := if 0 ≤ q then ⌊q⌋ else -⌊-q⌋

/-- An Event instance: the attributes set by Event.__init__, with the
timestamp as rational epoch seconds. -/
structure Event where
  event_type : EventType
  source : String
  message : String
  data : Dict
  level : NotificationLevel
  timestamp : ℚ
  id : String

/-- Event(event_type, source, message, data, level) at creation time now:
data defaults to the empty dict when None (or empty, by the or-expression),
and the id is derived from the type value and the millisecond clock. -/
def mkEvent (event_type : EventType) (source message : String) (data : Option Dict)
    (level : NotificationLevel) (now : ℚ) : Event :=
  { event_type := event_type, source := source, message := message,
    data := data.getD [], level := level, timestamp := now,
    id := event_type.value ++ "_" ++ toString (pyTrunc (now * 1000)) }

/-- The attribute values an Event instance carries, for modelling dynamic
attribute access. -/
inductive EventAttr where
  | etype (t : EventType)
  | str (s : String)
  | dict (d : Dict)
  | level (l : NotificationLevel)
  | time (t : ℚ)

/-- getattr(e, name): Event instances define exactly the seven attributes
set in init; any other name raises AttributeError. -/
def Event.getattr (e : Event) (name : String) : Except PyFault EventAttr :=
  if name = "event_type" then .ok (.etype e.event_type)
  else if name = "source" then .ok (.str e.source)
  else if name = "message" then .ok (.str e.message)
  else if name = "data" then .ok (.dict e.data)
  else if name = "level" then .ok (.level e.level)
  else if name = "timestamp" then .ok (.time e.timestamp)
  else if name = "id" then .ok (.str e.id)
  else .error (.attributeError name)

/-- The serialized record written by Event.to_dict (the JSON line of the
log file); the ISO timestamp string is modelled by the timestamp value
itself, which the serialization round-trip preserves. -/
structure EventRecord where
  id : String
  rtype : String
  source : String
  message : String
  data : Dict
  level : String
  timestamp : ℚ
  deriving DecidableEq

/-- to_dict(): the record with the enum payload under "type" and the enum
member name under "level". -/
def Event.toDict (e : Event) : EventRecord :=
  { id := e.id, rtype := e.event_type.value, source := e.source,
    message := e.message, data := e.data, level := e.level.nameStr,
    timestamp := e.timestamp }

/-! ## Duration formatting (observability.py lines 423-432) -/

/-- Round a rational to the nearest integer, ties to even — the rounding
CPython fixed-point float formatting performs (on the rational model of
the float value). -/
def roundHalfEven (q : ℚ) : Int :=
  let f : Int := ⌊q⌋
  let r : ℚ := q - f
  if r < 1/2 then f
  else if 1/2 < r then f + 1
  else if f % 2 = 0 then f else f + 1

/-- Left-pad a digit string with zeros to d characters. -/
def natPad (s : String) (d : ℕ) : String :=
  if d ≤ s.length then s else String.mk (List.replicate (d - s.length) '0') ++ s

/-- Decimal rendering of the scaled integer n with the last d digits after
the point. -/
def formatScaled (n : Int) (d : ℕ) : String :=
  let sign := if n < 0 then "-" else ""
  let m := n.natAbs
  if d = 0 then sign ++ toString m
  else sign ++ toString (m / 10 ^ d) ++ "." ++ natPad (toString (m % 10 ^ d)) d

/-- Fixed-point rendering of q with d decimal digits, the model of a
Python format spec .df applied to a float. -/
def formatFixed (q : ℚ) (d : ℕ) : String :=
  formatScaled (roundHalfEven (q * (10 : ℚ) ^ d)) d

/-- _get_duration(start) evaluated at time now: "unknown" without a start,
otherwise seconds with two decimals below one minute, minutes with one
decimal below one hour, hours with one decimal beyond. -/
def getDuration (now : ℚ) (start : Option ℚ) : String :=
  match start with
  | Option.none => "unknown"
  | some t =>
      let seconds := now - t
      if seconds < 60 then formatFixed seconds 2 ++ "s"
      else if seconds < 3600 then formatFixed (seconds / 60) 1 ++ "m"
      else formatFixed (seconds / 3600) 1 ++ "h"

/-- The format spec .1% used by progress: value times 100 rendered with
one decimal digit and a percent sign. -/
def formatPercent (q : ℚ) : String := formatFixed (q * 100) 1 ++ "%"

/-! ## SlackNotifier (src/execution/slack_notifier.py, lines 32-142) -/

/-- A SlackNotifier instance; webhook_url and channel are None when the
corresponding env variables are unset. -/
structure SlackNotifier where
  webhook_url : Option String
  channel : Option String
  enabled : Bool
  default_username : String
  default_icon : String

/-- One field object of the webhook payload: title, value, and the short
rendering hint computed from the value length. -/
structure PayloadField where
  title : String
  value : String
  short : Bool
  deriving DecidableEq

/-- The webhook payload built by _build_payload. -/
structure Payload where
  username : String
  icon_emoji : String
  color : String
  text : String
  ts : ℚ
  footer : String
  title : Option String
  fields : Option (List PayloadField)
  channel : Option String
  deriving DecidableEq

/-- Result of the single urlopen call in _send_payload: an HTTP status, a
URLError, or some other exception. -/
inductive NetResult where
  | ok (status : ℕ)
  | urlError (msg : String)
  | exn (msg : String)

/-- The network transport, supplied as an oracle from payload to result. -/
abbrev Net := Payload → NetResult

/-- bool(x) for an optional string: None and the empty string are falsy. -/
def pyTruthyStr : Option String → Bool
  | Option.none => false
  | some s => s ≠ ""

/-- _is_configured(): bool(self.webhook_url) and self.enabled. -/
def SlackNotifier.isConfigured (n : SlackNotifier) : Bool :=
  pyTruthyStr n.webhook_url && n.enabled

/-- _build_payload(message, level, title, fields, context) at clock now. -/
def SlackNotifier.buildPayload (n : SlackNotifier) (now : ℚ) (message : String)
    (level : NotificationLevel) (title : Option String)
    (fields : Option (List (String × String))) (context : Option String) : Payload :=
  { username := n.default_username, icon_emoji := n.default_icon,
    color := level.value, text := message, ts := now,
    footer := (match context with | some c => c | Option.none => "Agent Workflow Observability"),
    title := title,
    fields := fields.map (fun fs => fs.map (fun kv => ⟨kv.1, kv.2, kv.2.length < 40⟩)),
    channel := n.channel }

/-- _send_payload(payload): exactly one transport request; True only on
HTTP 200, False with a console diagnostic on URLError or any other
exception. Returns (result, requests made, console lines printed). -/
def sendPayload (net : Net) (p : Payload) : Bool × List Payload × List String :=
  match net p with
  | .ok status => (status == 200, [p], [])
  | .urlError m => (false, [p], ["[SLACK] Failed to send notification: " ++ m])
  | .exn m => (false, [p], ["[SLACK] Unexpected error: " ++ m])

/-- send(message, level, title, fields, context): when not configured,
print the would-send diagnostic and return False without touching the
network; otherwise build the payload and make the single delivery
attempt. Returns (result, requests made, console lines printed). -/
def SlackNotifier.send (n : SlackNotifier) (net : Net) (now : ℚ) (message : String)
    (level : NotificationLevel) (title : Option String)
    (fields : Option (List (String × String))) (context : Option String) :
    Bool × List Payload × List String :=
  if n.isConfigured then
    sendPayload net (n.buildPayload now message level title fields context)
  else
    (false, [], ["[SLACK] Not configured - would send: " ++ message])

/-! ## ObservabilityHub (src/execution/observability.py, lines 190-432) -/

/-- The title_map dict literal of _notify_slack, lines 302-316. -/
def titleMap : List (EventType × String) :=
  [(.DIRECTIVE_STARTED, "📋 Directive Started"),
   (.DIRECTIVE_COMPLETED, "✅ Directive Completed"),
   (.DIRECTIVE_FAILED, "❌ Directive Failed"),
   (.DIRECTIVE_UPDATED, "📝 Directive Updated"),
   (.SCRIPT_STARTED, "🚀 Script Started"),
   (.SCRIPT_COMPLETED, "✅ Script Completed"),
   (.SCRIPT_FAILED, "❌ Script Failed"),
   (.TASK_PROGRESS, "📊 Progress Update"),
   (.TASK_CHECKPOINT, "🏁 Checkpoint"),
   (.LEARNING_CAPTURED, "🧠 Learning Captured"),
   (.ERROR_RECOVERED, "🔄 Error Recovered"),
   (.SYSTEM_HEALTH, "💚 System Health"),
   (.METRIC_RECORDED, "📈 Metrics")]

/-- title_map.get(t, the default title). -/
def titleMapGet (t : EventType) : String := (titleMap.lookup t).getD "📌 Event"

/-- An observable side effect of an emit call: a console print, a file
append, an actual webhook network request, a slack console diagnostic,
or a subscriber invocation (with its caught error message, if any). -/
inductive SinkCall where
  | console (line : String)
  | file (fname : String) (record : EventRecord)
  | webhook (p : Payload)
  | slackConsole (line : String)
  | subscriberOk (i : ℕ)
  | subscriberErr (i : ℕ) (line : String)

/-- The level_icons dict of _log_to_console with its .get default. -/
def levelIcon (l : NotificationLevel) : String :=
  match l with
  | .INFO => "ℹ️"
  | .WARNING => "⚠️"
  | .ERROR => "❌"
  | .SUCCESS => "✅"
  | .DEBUG => "🔍"

/-- Two-digit zero-padded rendering of a number below 100. -/
def pad2 (n : ℕ) : String := natPad (toString n) 2

/-- strftime %H:%M:%S of an epoch-seconds timestamp, modelled in UTC. -/
def hmsString (t : ℚ) : String :=
  let total := (⌊t⌋ % 86400).toNat
  pad2 (total / 3600) ++ ":" ++ pad2 (total % 3600 / 60) ++ ":" ++ pad2 (total % 60)

/-- The console line printed by _log_to_console. -/
def consoleLine (e : Event) : String :=
  "[" ++ hmsString e.timestamp ++ "] " ++ levelIcon e.level ++ " [" ++ e.source ++ "] " ++ e.message

/-- _notify_slack(event): builds the field dict from Source plus the data
entries stringified and truncated to 100 characters, then evaluates the
send arguments; evaluating title_map.get(event.type, ...) performs the
dynamic attribute access event.type, which Event does not define.
Returns the slack sink calls made, or the propagated fault. -/
def notifySlackFn (slack : SlackNotifier) (net : Net) (now : ℚ) (e : Event) :
    Except PyFault (List SinkCall) :=
  let fields := dictUpdate [("Source", e.source)]
    (e.data.map (fun kv => (kv.1, (PyVal.toStr kv.2).take 100)))
  match e.getattr "type" with
  | .error f => .error f
  | .ok a =>
      let title := match a with
        | .etype t => titleMapGet t
        | _ => "📌 Event"
      let r := slack.send net now e.message e.level (some title) (some fields) Option.none
      .ok (r.2.2.map .slackConsole ++ r.2.1.map .webhook)

/-! ## EventLogger (src/execution/observability.py, lines 147-187) -/

/-- The file system seen by EventLogger: log file name to its lines, each
line the serialized record it holds. -/
abbrev LogFS := List (String × List EventRecord)

/-- The per-day log file name derived from a strftime date string. -/
def logFileName (dateStr : String) : String := "events_" ++ dateStr ++ ".jsonl"

/-- log(event): append one serialized line to the day file, creating it
when absent. -/
def logRecord (fs : LogFS) (dateStr : String) (r : EventRecord) : LogFS :=
  let fname := logFileName dateStr
  match dictGet fs fname with
  | Option.none => dictSet fs fname [r]
  | some lines => dictSet fs fname (lines ++ [r])

/-- get_events(date, event_type, source): an empty list when the day file
does not exist, otherwise the lines in file order, skipping those whose
type does not match a truthy event_type filter and those whose source
does not match a truthy source filter. -/
def getEvents (fs : LogFS) (dateStr : String) (event_type : Option EventType)
    (source : Option String) : List EventRecord :=
  match dictGet fs (logFileName dateStr) with
  | Option.none => []
  | some lines =>
      lines.filter fun r =>
        (match event_type with
         | some et => r.rtype == et.value
         | Option.none => true)
        && (if pyTruthyStr source then r.source == source.getD "" else true)

/-! ## ObservabilityHub state and emit -/

/-- A subscriber callback: none models a normal return, some msg models a
raised exception carrying message msg. -/
abbrev Subscriber := Event → Option String

/-- The mutable state of the ObservabilityHub singleton, together with the
environment-derived sink flags fixed at construction. -/
structure Hub where
  slack : SlackNotifier
  logFS : LogFS
  metrics : MetricsCollector
  subscribers : List Subscriber
  consoleEnabled : Bool
  fileEnabled : Bool
  slackEnabled : Bool
  activeDirectives : List (String × ℚ)
  activeScripts : List (String × ℚ)

/-- The subscriber loop of emit: every callback is invoked in order; a
raised exception is caught and printed, and the loop continues (the index
is model bookkeeping identifying which callback ran). -/
def runSubscribersFrom (i : ℕ) (e : Event) : List Subscriber → List SinkCall
  | [] => []
  | s :: rest =>
      (match s e with
       | Option.none => SinkCall.subscriberOk i
       | some m => SinkCall.subscriberErr i ("[OBSERVABILITY] Subscriber error: " ++ m))
      :: runSubscribersFrom (i + 1) e rest

/-- The console and file sink calls emit makes before the slack step, in
order (console first when enabled, then the file append when enabled). -/
def emitPreTrace (hub : Hub) (dateStr : String) (e : Event) : List SinkCall :=
  (if hub.consoleEnabled then [SinkCall.console (consoleLine e)] else []) ++
  (if hub.fileEnabled then [SinkCall.file (logFileName dateStr) e.toDict] else [])

/-- The log file system after the file step of emit. -/
def emitLogFS (hub : Hub) (dateStr : String) (e : Event) : LogFS :=
  if hub.fileEnabled then logRecord hub.logFS dateStr e.toDict else hub.logFS

/-- emit(event_type, source, message, data, level, notify_slack) at clock
time now on day dateStr: construct the Event, print to console if enabled,
append to the day file if enabled, run the slack sink if requested and
enabled (a fault there propagates, keeping the effects already made), then
invoke every subscriber, and return the Event. Result: the returned value
or propagated fault, the updated hub, and the sink calls made. -/
def emit (hub : Hub) (net : Net) (now : ℚ) (dateStr : String)
    (event_type : EventType) (source message : String) (data : Option Dict)
    (level : NotificationLevel) (notify_slack : Bool) :
    Except PyFault Event × Hub × List SinkCall :=
  let event := mkEvent event_type source message data level now
  let hub1 := { hub with logFS := emitLogFS hub dateStr event }
  match (if notify_slack && hub.slackEnabled then notifySlackFn hub.slack net now event
         else .ok []) with
  | .error f => (.error f, hub1, emitPreTrace hub dateStr event)
  | .ok slackTr =>
      let subTr := runSubscribersFrom 0 event hub1.subscribers
      (.ok event, hub1, emitPreTrace hub dateStr event ++ slackTr ++ subTr)

/-! ## Convenience wrappers (observability.py lines 330-421) -/

/-- bool(x) for an optional dict: None and the empty dict are falsy. -/
def pyTruthyDict : Option Dict → Bool
  | Option.none => false
  | some d => d ≠ []

/-- directive_started(name, context): store the start time, then emit. -/
def directiveStarted (hub : Hub) (net : Net) (now : ℚ) (dateStr : String)
    (name : String) (context : Option Dict) :
    Except PyFault Event × Hub × List SinkCall :=
  let hub1 := { hub with activeDirectives := dictSet hub.activeDirectives name now }
  emit hub1 net now dateStr .DIRECTIVE_STARTED name ("Started directive: " ++ name)
    context .INFO true

/-- directive_completed(name, result): pop the start time, build the data
dict from the duration plus a truthy result, then emit the terminal event. -/
def directiveCompleted (hub : Hub) (net : Net) (now : ℚ) (dateStr : String)
    (name : String) (result : Option Dict) :
    Except PyFault Event × Hub × List SinkCall :=
  let p := dictPop hub.activeDirectives name
  let hub1 := { hub with activeDirectives := p.2 }
  let duration := getDuration now p.1
  let data : Dict := [("duration", .str duration)]
  let data := if pyTruthyDict result then dictUpdate data (result.getD []) else data
  emit hub1 net now dateStr .DIRECTIVE_COMPLETED name ("Completed directive: " ++ name)
    (some data) .SUCCESS true

/-- directive_failed(name, error): pop the start time and emit the failure
event carrying the duration, the error text, and the error type name. -/
def directiveFailed (hub : Hub) (net : Net) (now : ℚ) (dateStr : String)
    (name errMsg errTypeName : String) :
    Except PyFault Event × Hub × List SinkCall :=
  let p := dictPop hub.activeDirectives name
  let hub1 := { hub with activeDirectives := p.2 }
  let duration := getDuration now p.1
  emit hub1 net now dateStr .DIRECTIVE_FAILED name
    ("Failed directive: " ++ name ++ " - " ++ errMsg)
    (some [("duration", .str duration), ("error", .str errMsg),
           ("error_type", .str errTypeName)]) .ERROR true

/-- script_started(name, directive): store the start time and emit, with a
directive entry in data only for a truthy directive string. -/
def scriptStarted (hub : Hub) (net : Net) (now : ℚ) (dateStr : String)
    (name : String) (directive : Option String) :
    Except PyFault Event × Hub × List SinkCall :=
  let hub1 := { hub with activeScripts := dictSet hub.activeScripts name now }
  let data : Dict := if pyTruthyStr directive then [("directive", .str (directive.getD ""))] else []
  emit hub1 net now dateStr .SCRIPT_STARTED name ("Started script: " ++ name)
    (some data) .INFO true

/-- The metric-recording loop of script_completed: every entry passing the
isinstance(v, (int, float)) test is recorded under name.key as float(v). -/
def recordNumericMetrics (name : String) :
    MetricsCollector → Dict → Except PyFault MetricsCollector
  | c, [] => .ok c
  | c, (k, v) :: rest => do
      let c₁ ← if isinstanceIntFloat v then c.record (name ++ "." ++ k) (pyFloat v) else pure c
      recordNumericMetrics name c₁ rest

/-- script_completed(name, metrics): pop the start time; for a truthy
metrics dict, merge it into the event data and record its numeric entries
into the MetricsCollector; then emit the terminal event. -/
def scriptCompleted (hub : Hub) (net : Net) (now : ℚ) (dateStr : String)
    (name : String) (metrics : Option Dict) :
    Except PyFault Event × Hub × List SinkCall :=
  let p := dictPop hub.activeScripts name
  let hub1 := { hub with activeScripts := p.2 }
  let duration := getDuration now p.1
  let data : Dict := [("duration", .str duration)]
  if pyTruthyDict metrics then
    let m := metrics.getD []
    match recordNumericMetrics name hub1.metrics m with
    | .error f => (.error f, hub1, [])
    | .ok mc =>
        emit { hub1 with metrics := mc } net now dateStr .SCRIPT_COMPLETED name
          ("Completed script: " ++ name) (some (dictUpdate data m)) .SUCCESS true
  else
    emit hub1 net now dateStr .SCRIPT_COMPLETED name
      ("Completed script: " ++ name) (some data) .SUCCESS true

/-- script_failed(name, error): pop the start time, increment the global
and per-name error counters, then emit the failure event. -/
def scriptFailed (hub : Hub) (net : Net) (now : ℚ) (dateStr : String)
    (name errMsg : String) :
    Except PyFault Event × Hub × List SinkCall :=
  let p := dictPop hub.activeScripts name
  let hub1 := { hub with activeScripts := p.2 }
  let duration := getDuration now p.1
  match (do
      let m₁ ← hub1.metrics.increment "errors.total" 1
      m₁.increment ("errors." ++ name) 1 : Except PyFault MetricsCollector) with
  | .error f => (.error f, hub1, [])
  | .ok mc =>
      emit { hub1 with metrics := mc } net now dateStr .SCRIPT_FAILED name
        ("Script failed: " ++ name ++ " - " ++ errMsg)
        (some [("duration", .str duration), ("error", .str errMsg)]) .ERROR true

/-- progress(source, message, percent): emit a TASK_PROGRESS event with
the percent rendered via the .1% format spec, always passing
notify_slack=false. -/
def progress (hub : Hub) (net : Net) (now : ℚ) (dateStr : String)
    (source message : String) (percent : Option ℚ) :
    Except PyFault Event × Hub × List SinkCall :=
  let data : Dict := match percent with
    | some p => [("percent", .str (formatPercent p))]
    | Option.none => []
  emit hub net now dateStr .TASK_PROGRESS source message (some data) .INFO false

/-- A sequence of record calls on a collector, left to right. -/
def recordSeq (c : MetricsCollector) (name : String) (vs : List ℚ) :
    Except PyFault MetricsCollector :=
  vs.foldlM (fun c v => c.record name v) c

/-- A sequence of log calls on a file system, left to right. -/
def logSeq (fs : LogFS) (dateStr : String) (rs : List EventRecord) : LogFS :=
  rs.foldl (fun fs r => logRecord fs dateStr r) fs

/-- Whether a sink call is an actual webhook network request. -/
def isWebhookCall : SinkCall → Bool
  | .webhook _ => true
  | _ => false

/-- Whether a sink call is a subscriber invocation. -/
def isSubscriberCall : SinkCall → Bool
  | .subscriberOk _ => true
  | .subscriberErr _ _ => true
  | _ => false

/-- A concrete unconfigured, slack-disabled hub used by witnesses. -/
def testHub : Hub :=
  { slack := ⟨Option.none, Option.none, true, "Agent Workflow", ":robot_face:"⟩,
    logFS := [], metrics := MetricsCollector.new, subscribers := [],
    consoleEnabled := false, fileEnabled := false, slackEnabled := false,
    activeDirectives := [], activeScripts := [] }

/-- A transport oracle answering HTTP 200 to every request. -/
def netOk : Net := fun _ => .ok 200

/-! ## Helper lemmas -/

@[simp]
theorem except_bind_ok {ε α β : Type} (a : α) (f : α → Except ε β) :
    (Except.ok a >>= f) = f a := rfl

@[simp]
theorem except_bind_error {ε α β : Type} (e : ε) (f : α → Except ε β) :
    ((Except.error e : Except ε α) >>= f) = Except.error e := rfl

@[simp]
theorem except_pure_eq_ok {ε α : Type} (a : α) : (pure a : Except ε α) = Except.ok a := rfl

theorem dictGet_dictSet_self {α : Type} (d : List (String × α)) (k : String) (v : α) :
    dictGet (dictSet d k v) k = some v := by
  induction d with
  | nil => simp [dictSet, dictGet]
  | cons kv rest ih =>
      obtain ⟨k₀, v₀⟩ := kv
      by_cases h : k₀ = k
      · simp [dictSet, dictGet, h]
      · simp [dictSet, dictGet, h, ih]

theorem dictPop_of_absent {α : Type} (d : List (String × α)) (k : String)
    (h : dictGet d k = Option.none) : dictPop d k = (Option.none, d) := by
  induction d with
  | nil => simp [dictPop]
  | cons kv rest ih =>
      obtain ⟨k₀, v₀⟩ := kv
      by_cases hk : k₀ = k
      · simp [dictGet, hk] at h
      · simp [dictGet, hk] at h
        simp [dictPop, hk, ih h]

theorem record_unlocked (c : MetricsCollector) (name : String) (v : ℚ)
    (h : c.locked = false) :
    ∃ m, c.record name v = .ok ⟨m, c.counters, false⟩ ∧
      dictGet m name = some (((dictGet c.metrics name).getD []) ++ [v]) := by
  obtain ⟨ms, cnt, l⟩ := c
  simp only at h
  subst l
  by_cases hin : (dictGet ms name).isNone
  · refine ⟨dictSet (dictSet ms name []) name [v], ?_, ?_⟩
    · simp [MetricsCollector.record, MetricsCollector.withLock, hin,
            dictGet_dictSet_self, Except.bind]
    · rw [Option.isNone_iff_eq_none] at hin
      simp [dictGet_dictSet_self, hin]
  · obtain ⟨cur, hcur⟩ := Option.ne_none_iff_exists'.mp (by simpa using hin)
    refine ⟨dictSet ms name (cur ++ [v]), ?_, ?_⟩
    · simp [MetricsCollector.record, MetricsCollector.withLock, hin, hcur, Except.bind]
    · simp [dictGet_dictSet_self, hcur]

theorem foldl_min_mem (l : List ℚ) (a : ℚ) : l.foldl min a ∈ a :: l := by
  induction l generalizing a with
  | nil => simp
  | cons x xs ih =>
      rw [List.foldl_cons]
      rcases List.mem_cons.mp (ih (min a x)) with h | h
      · rw [h]
        rcases min_choice a x with hc | hc <;> rw [hc]
        · exact List.mem_cons_self a (x :: xs)
        · exact List.mem_cons_of_mem a (List.mem_cons_self x xs)
      · exact List.mem_cons_of_mem a (List.mem_cons_of_mem x h)

theorem foldl_min_le (l : List ℚ) (a : ℚ) :
    l.foldl min a ≤ a ∧ ∀ v ∈ l, l.foldl min a ≤ v := by
  induction l generalizing a with
  | nil => simp
  | cons x xs ih =>
      obtain ⟨h1, h2⟩ := ih (min a x)
      refine ⟨le_trans h1 (min_le_left a x), ?_⟩
      intro v hv
      rcases List.mem_cons.mp hv with rfl | hv
      · exact le_trans h1 (min_le_right a v)
      · exact h2 v hv

theorem foldl_max_mem (l : List ℚ) (a : ℚ) : l.foldl max a ∈ a :: l := by
  induction l generalizing a with
  | nil => simp
  | cons x xs ih =>
      rw [List.foldl_cons]
      rcases List.mem_cons.mp (ih (max a x)) with h | h
      · rw [h]
        rcases max_choice a x with hc | hc <;> rw [hc]
        · exact List.mem_cons_self a (x :: xs)
        · exact List.mem_cons_of_mem a (List.mem_cons_self x xs)
      · exact List.mem_cons_of_mem a (List.mem_cons_of_mem x h)

theorem foldl_max_ge (l : List ℚ) (a : ℚ) :
    a ≤ l.foldl max a ∧ ∀ v ∈ l, v ≤ l.foldl max a := by
  induction l generalizing a with
  | nil => simp
  | cons x xs ih =>
      obtain ⟨h1, h2⟩ := ih (max a x)
      refine ⟨le_trans (le_max_left a x) h1, ?_⟩
      intro v hv
      rcases List.mem_cons.mp hv with rfl | hv
      · exact le_trans (le_max_right a v) h1
      · exact h2 v hv

theorem pySum_eq_sum (vs : List ℚ) : pySum vs = vs.sum := by
  simp [pySum, List.sum_eq_foldl]

theorem recordSeq_acc (name : String) (cnt : List (String × Int)) (vs : List ℚ) :
    ∀ acc, recordSeq ⟨[(name, acc)], cnt, false⟩ name vs =
      .ok ⟨[(name, acc ++ vs)], cnt, false⟩ := by
  induction vs with
  | nil => intro acc; simp [recordSeq]
  | cons v rest ih =>
      intro acc
      have hrec : MetricsCollector.record ⟨[(name, acc)], cnt, false⟩ name v =
          .ok ⟨[(name, acc ++ [v])], cnt, false⟩ := by
        simp [MetricsCollector.record, MetricsCollector.withLock, dictGet, dictSet,
              Except.bind]
      have := ih (acc ++ [v])
      simp only [recordSeq, List.foldlM] at this ⊢
      rw [hrec]
      simpa [Except.bind] using this

theorem recordSeq_fresh (name : String) (v : ℚ) (vs : List ℚ) :
    recordSeq MetricsCollector.new name (v :: vs) = .ok ⟨[(name, v :: vs)], [], false⟩ := by
  have hrec : MetricsCollector.record MetricsCollector.new name v =
      .ok ⟨[(name, [v])], [], false⟩ := by
    simp [MetricsCollector.record, MetricsCollector.new, MetricsCollector.withLock,
          dictGet, dictSet, Except.bind]
  have := recordSeq_acc name [] vs [v]
  simp only [recordSeq, List.foldlM] at this ⊢
  rw [hrec]
  simpa [Except.bind] using this

/-! ## Claims about MetricsCollector -/

/-- C5: for a fresh collector and a nonempty sequence of recorded values,
get_summary returns the count, the arithmetic sum, the average sum/count,
and exact min and max of the recorded values. -/
theorem metrics_summary_spec (name : String) (vs : List ℚ) (h : vs ≠ []) :
    ∃ c : MetricsCollector, recordSeq MetricsCollector.new name vs = .ok c ∧
      ∃ s : Summary, c.getSummary name = .ok (some s) ∧
        s.count = vs.length ∧ s.sum = vs.sum ∧ s.avg = vs.sum / vs.length ∧
        (s.min ∈ vs ∧ ∀ v ∈ vs, s.min ≤ v) ∧
        (s.max ∈ vs ∧ ∀ v ∈ vs, v ≤ s.max) := by
  obtain ⟨v, rest, rfl⟩ := List.exists_cons_of_ne_nil h
  refine ⟨_, recordSeq_fresh name v rest, ?_⟩
  refine ⟨⟨(v :: rest).length, pySum (v :: rest),
          pySum (v :: rest) / ((v :: rest).length : ℚ),
          pyMin (v :: rest), pyMax (v :: rest)⟩, ?_, ?_, ?_, ?_, ?_, ?_⟩
  · simp [MetricsCollector.getSummary, MetricsCollector.withLock, dictGet, Except.bind]
  · simp
  · simp [pySum_eq_sum]
  · simp [pySum_eq_sum]
  · constructor
    · simpa [pyMin] using foldl_min_mem rest v
    · intro w hw
      rcases List.mem_cons.mp hw with rfl | hw
      · simpa [pyMin] using (foldl_min_le rest w).1
      · simpa [pyMin] using (foldl_min_le rest v).2 w hw
  · constructor
    · simpa [pyMax] using foldl_max_mem rest v
    · intro w hw
      rcases List.mem_cons.mp hw with rfl | hw
      · simpa [pyMax] using (foldl_max_ge rest w).1
      · simpa [pyMax] using (foldl_max_ge rest v).2 w hw

/-- Witness for C5 at the concrete sequence [2]. -/
theorem metrics_summary_witness :
    ([(2 : ℚ)] ≠ []) ∧
    (∃ c : MetricsCollector, recordSeq MetricsCollector.new "m" [2] = .ok c ∧
      ∃ s : Summary, c.getSummary "m" = .ok (some s) ∧
        s.count = [(2 : ℚ)].length ∧ s.sum = [(2 : ℚ)].sum ∧
        s.avg = [(2 : ℚ)].sum / [(2 : ℚ)].length ∧
        (s.min ∈ [(2 : ℚ)] ∧ ∀ v ∈ [(2 : ℚ)], s.min ≤ v) ∧
        (s.max ∈ [(2 : ℚ)] ∧ ∀ v ∈ [(2 : ℚ)], v ≤ s.max)) :=
  ⟨by simp, metrics_summary_spec "m" [2] (by simp)⟩

/-- C1 is refuted by the code: get_all acquires the collector lock and then
calls get_summary for each recorded metric name while still holding the
same non-reentrant lock, so it deadlocks (modelled as PyFault.deadlock)
whenever at least one metric series exists, instead of returning a
snapshot. -/
theorem getAll_deadlock (c : MetricsCollector) (h1 : c.locked = false)
    (h2 : c.metrics ≠ []) : c.getAll = .error .deadlock := by
  obtain ⟨ms, cnt, l⟩ := c
  simp only at h1
  subst l
  match ms, h2 with
  | (k, vs) :: rest, _ =>
    simp [MetricsCollector.getAll, summariesUnderLock, MetricsCollector.getSummary,
          MetricsCollector.withLock, Except.bind]

/-- Witness for C1: after recording one value, get_all deadlocks. -/
theorem getAll_deadlock_witness :
    MetricsCollector.record MetricsCollector.new "x" 1 =
      .ok ⟨[("x", [1])], [], false⟩ ∧
    MetricsCollector.getAll ⟨[("x", [1])], [], false⟩ = .error .deadlock := by
  constructor
  · simp [MetricsCollector.record, MetricsCollector.new, MetricsCollector.withLock,
          dictGet, dictSet, Except.bind]
  · exact getAll_deadlock ⟨[("x", [1])], [], false⟩ rfl (by simp)

/-! ## Claims about duration formatting -/

/-- C6: a unit of work started at t₀ and completed at t₀ + s carries a
duration string of seconds with two decimals below 60 seconds, minutes
with one decimal below 3600 seconds, hours with one decimal beyond; a
45-second span yields "45.00s" and a 125-second span yields "2.1m". -/
theorem duration_format_spec (t₀ s : ℚ) :
    (s < 60 → getDuration (t₀ + s) (some t₀) = formatFixed s 2 ++ "s") ∧
    (60 ≤ s → s < 3600 → getDuration (t₀ + s) (some t₀) = formatFixed (s / 60) 1 ++ "m") ∧
    (3600 ≤ s → getDuration (t₀ + s) (some t₀) = formatFixed (s / 3600) 1 ++ "h") ∧
    getDuration 45 (some 0) = "45.00s" ∧ getDuration 125 (some 0) = "2.1m" := by
  have hsub : t₀ + s - t₀ = s := by ring
  refine ⟨?_, ?_, ?_, ?_, ?_⟩
  · intro h
    rw [getDuration, hsub, if_pos h]
  · intro h1 h2
    rw [getDuration, hsub, if_neg (by linarith), if_pos h2]
  · intro h
    rw [getDuration, hsub, if_neg (by linarith), if_neg (by linarith)]
  · rw [getDuration]
    norm_num
    have h : roundHalfEven ((45 : ℚ) * (10 : ℚ) ^ (2 : ℕ)) = 4500 := by
      unfold roundHalfEven
      norm_num
    unfold formatFixed
    rw [h]
    decide
  · rw [getDuration]
    norm_num
    have h : roundHalfEven ((25 : ℚ) / 12 * (10 : ℚ) ^ (1 : ℕ)) = 21 := by
      unfold roundHalfEven
      norm_num
    unfold formatFixed
    rw [h]
    decide

/-- Witness for C6 at t₀ = 0 and s = 45. -/
theorem duration_format_witness :
    (45 : ℚ) < 60 ∧ getDuration (0 + 45) (some 0) = formatFixed 45 2 ++ "s" :=
  ⟨by norm_num, (duration_format_spec 0 45).1 (by norm_num)⟩

/-! ## Claims about the Notifier -/

/-- C3: send with no webhook endpoint configured or with the notifier
disabled performs no network request, prints a console diagnostic, and
returns false; and every send call makes at most one delivery attempt. -/
theorem slack_send_spec (n : SlackNotifier) (net : Net) (now : ℚ) (msg : String)
    (level : NotificationLevel) (title : Option String)
    (fields : Option (List (String × String))) (context : Option String) :
    (n.isConfigured = false →
      n.send net now msg level title fields context =
        (false, [], ["[SLACK] Not configured - would send: " ++ msg])) ∧
    (n.send net now msg level title fields context).2.1.length ≤ 1 := by
  constructor
  · intro h
    simp [SlackNotifier.send, h]
  · by_cases h : n.isConfigured
    · rw [SlackNotifier.send, if_pos h]
      rcases hn : net (n.buildPayload now msg level title fields context) <;>
        simp [sendPayload, hn]
    · simp [SlackNotifier.send, h]

/-- Witness for C3: a notifier with no webhook URL. -/
theorem slack_send_witness :
    SlackNotifier.send
        ⟨Option.none, Option.none, true, "Agent Workflow", ":robot_face:"⟩
        netOk 0 "hello" .INFO Option.none Option.none Option.none =
      (false, [], ["[SLACK] Not configured - would send: hello"]) :=
  (slack_send_spec ⟨Option.none, Option.none, true, "Agent Workflow", ":robot_face:"⟩
    netOk 0 "hello" .INFO Option.none Option.none Option.none).1 rfl

/-! ## Claims about the slack sink of emit -/

theorem getattr_type_error (e : Event) :
    e.getattr "type" = .error (.attributeError "type") := by
  simp [Event.getattr]

theorem notifySlackFn_error (slack : SlackNotifier) (net : Net) (now : ℚ) (e : Event) :
    notifySlackFn slack net now e = .error (.attributeError "type") := by
  rw [notifySlackFn, getattr_type_error]

/-- C2 is refuted by the code: after building the field dict,
_notify_slack evaluates title_map.get(event.type, ...), and Event defines
an attribute event_type but no attribute type, so every slack-notified
emit raises AttributeError before Notifier.send is reached, instead of
translating the event into a webhook message. -/
theorem notifySlack_attribute_error (slack : SlackNotifier) (net : Net) (now : ℚ)
    (e : Event) : notifySlackFn slack net now e = .error (.attributeError "type") :=
  notifySlackFn_error slack net now e

/-! ## Shape lemmas about emit -/

theorem emit_slack_skipped (hub : Hub) (net : Net) (now : ℚ) (dateStr : String)
    (et : EventType) (so me : String) (d : Option Dict) (lv : NotificationLevel)
    (ns : Bool) (h : (ns && hub.slackEnabled) = false) :
    emit hub net now dateStr et so me d lv ns =
      (.ok (mkEvent et so me d lv now),
       { hub with logFS := emitLogFS hub dateStr (mkEvent et so me d lv now) },
       emitPreTrace hub dateStr (mkEvent et so me d lv now) ++
         runSubscribersFrom 0 (mkEvent et so me d lv now) hub.subscribers) := by
  simp [emit, h]

theorem emit_slack_error (hub : Hub) (net : Net) (now : ℚ) (dateStr : String)
    (et : EventType) (so me : String) (d : Option Dict) (lv : NotificationLevel)
    (ns : Bool) (h : (ns && hub.slackEnabled) = true) :
    emit hub net now dateStr et so me d lv ns =
      (.error (.attributeError "type"),
       { hub with logFS := emitLogFS hub dateStr (mkEvent et so me d lv now) },
       emitPreTrace hub dateStr (mkEvent et so me d lv now)) := by
  simp [emit, h, notifySlackFn_error]

theorem emit_metrics_unchanged (hub : Hub) (net : Net) (now : ℚ) (dateStr : String)
    (et : EventType) (so me : String) (d : Option Dict) (lv : NotificationLevel)
    (ns : Bool) :
    (emit hub net now dateStr et so me d lv ns).2.1.metrics = hub.metrics := by
  by_cases h : (ns && hub.slackEnabled) = true
  · rw [emit_slack_error hub net now dateStr et so me d lv ns h]
  · rw [emit_slack_skipped hub net now dateStr et so me d lv ns
        (Bool.not_eq_true _ ▸ Bool.of_not_eq_true h)]

theorem runSub_no_webhook (subs : List Subscriber) (i : ℕ) (e : Event) :
    (runSubscribersFrom i e subs).all (fun c => !isWebhookCall c) = true := by
  induction subs generalizing i with
  | nil => rfl
  | cons s rest ih =>
      cases hse : s e <;>
        · simp only [runSubscribersFrom, hse, List.all_cons, ih, Bool.and_true]
          rfl

theorem emitPreTrace_no_webhook (hub : Hub) (dateStr : String) (e : Event) :
    (emitPreTrace hub dateStr e).all (fun c => !isWebhookCall c) = true := by
  by_cases hc : hub.consoleEnabled <;> by_cases hf : hub.fileEnabled <;>
    simp [emitPreTrace, hc, hf, isWebhookCall]

/-! ## Claims about webhook suppression -/

/-- C4: emit with notify_slack=false never makes a webhook request and
returns the constructed Event no matter how the console, file, and slack
flags are set; a progress call, which fixes notify_slack=false, also never
makes a webhook request. -/
theorem emit_notify_false_no_webhook (hub : Hub) (net : Net) (now : ℚ)
    (dateStr : String) (event_type : EventType) (source message : String)
    (data : Option Dict) (level : NotificationLevel) (src msg : String)
    (percent : Option ℚ) :
    ((emit hub net now dateStr event_type source message data level false).2.2.all
        (fun c => !isWebhookCall c) = true) ∧
    ((emit hub net now dateStr event_type source message data level false).1 =
        .ok (mkEvent event_type source message data level now)) ∧
    ((progress hub net now dateStr src msg percent).2.2.all
        (fun c => !isWebhookCall c) = true) := by
  have key : ∀ (et : EventType) (so me : String) (d : Option Dict)
      (lv : NotificationLevel),
      ((emit hub net now dateStr et so me d lv false).2.2.all
          (fun c => !isWebhookCall c) = true) ∧
      ((emit hub net now dateStr et so me d lv false).1 = .ok (mkEvent et so me d lv now)) := by
    intro et so me d lv
    rw [emit_slack_skipped hub net now dateStr et so me d lv false (by simp)]
    exact ⟨by simp [List.all_append, emitPreTrace_no_webhook, runSub_no_webhook], rfl⟩
  exact ⟨(key _ _ _ _ _).1, (key _ _ _ _ _).2,
         by simp only [progress]; exact (key _ _ _ _ _).1⟩

/-! ## Claim about boolean metric values -/

/-- C10: script_completed treats a boolean metrics entry as numeric, since
Python bool passes the isinstance(v, (int, float)) test, and records it
under name.key as 1.0 for True and 0.0 for False. -/
theorem script_completed_records_bool (hub : Hub) (net : Net) (now : ℚ)
    (dateStr : String) (name k : String) (b : Bool)
    (hm : hub.metrics.locked = false)
    (h2 : dictGet hub.metrics.metrics (name ++ "." ++ k) = Option.none) :
    dictGet (scriptCompleted hub net now dateStr name
        (some [(k, PyVal.bool b)])).2.1.metrics.metrics (name ++ "." ++ k) =
      some [if b then (1 : ℚ) else 0] := by
  obtain ⟨m, hrec, hget⟩ := record_unlocked hub.metrics (name ++ "." ++ k)
    (if b then (1 : ℚ) else 0) hm
  rw [scriptCompleted]
  simp only [pyTruthyDict, recordNumericMetrics, isinstanceIntFloat, pyFloat, hrec,
             except_bind_ok, ne_eq, reduceCtorEq, not_false_eq_true, decide_True,
             if_true]
  rw [emit_metrics_unchanged]
  rw [hget, h2]
  simp

theorem increment_unlocked (c : MetricsCollector) (name : String) (amount : Int)
    (h : c.locked = false) :
    c.increment name amount =
      .ok ⟨c.metrics,
           dictSet c.counters name (((dictGet c.counters name).getD 0) + amount),
           false⟩ := by
  obtain ⟨ms, cnt, l⟩ := c
  simp only at h
  subst l
  simp [MetricsCollector.increment, MetricsCollector.withLock]

/-- C7 records both what the claim asserts and where the code breaks it:
with the slack sink disabled, completing or failing a directive or script
whose name was never started raises nothing, reports duration "unknown"
in the event data, and still emits the terminal event; but with the slack
sink enabled (the default), the same call raises AttributeError out of
emit because _notify_slack reads the undefined attribute event.type, so
the claim that no error is raised fails on the code. -/
theorem terminal_without_start (hub : Hub) (net : Net) (now : ℚ) (dateStr : String)
    (name errMsg errTypeName : String)
    (hd : dictGet hub.activeDirectives name = Option.none)
    (hs : dictGet hub.activeScripts name = Option.none)
    (hm : hub.metrics.locked = false) :
    (hub.slackEnabled = false →
      (∃ e, (directiveCompleted hub net now dateStr name Option.none).1 = .ok e ∧
        e.event_type = .DIRECTIVE_COMPLETED ∧
        dictGet e.data "duration" = some (.str "unknown")) ∧
      (∃ e, (directiveFailed hub net now dateStr name errMsg errTypeName).1 = .ok e ∧
        e.event_type = .DIRECTIVE_FAILED ∧
        dictGet e.data "duration" = some (.str "unknown")) ∧
      (∃ e, (scriptCompleted hub net now dateStr name Option.none).1 = .ok e ∧
        e.event_type = .SCRIPT_COMPLETED ∧
        dictGet e.data "duration" = some (.str "unknown")) ∧
      (∃ e, (scriptFailed hub net now dateStr name errMsg).1 = .ok e ∧
        e.event_type = .SCRIPT_FAILED ∧
        dictGet e.data "duration" = some (.str "unknown"))) ∧
    (hub.slackEnabled = true →
      (directiveCompleted hub net now dateStr name Option.none).1 =
        .error (.attributeError "type")) := by
  have hdc : directiveCompleted hub net now dateStr name Option.none =
      emit hub net now dateStr .DIRECTIVE_COMPLETED name
        ("Completed directive: " ++ name)
        (some [("duration", PyVal.str "unknown")]) .SUCCESS true := by
    rw [directiveCompleted, dictPop_of_absent _ _ hd]
    simp [getDuration, pyTruthyDict]
  have hdf : directiveFailed hub net now dateStr name errMsg errTypeName =
      emit hub net now dateStr .DIRECTIVE_FAILED name
        ("Failed directive: " ++ name ++ " - " ++ errMsg)
        (some [("duration", PyVal.str "unknown"), ("error", PyVal.str errMsg),
               ("error_type", PyVal.str errTypeName)]) .ERROR true := by
    rw [directiveFailed, dictPop_of_absent _ _ hd]
    simp [getDuration]
  have hsc : scriptCompleted hub net now dateStr name Option.none =
      emit hub net now dateStr .SCRIPT_COMPLETED name
        ("Completed script: " ++ name)
        (some [("duration", PyVal.str "unknown")]) .SUCCESS true := by
    rw [scriptCompleted, dictPop_of_absent _ _ hs]
    simp [getDuration, pyTruthyDict]
  have hsf : scriptFailed hub net now dateStr name errMsg =
      emit { hub with metrics :=
          ⟨hub.metrics.metrics,
           dictSet (dictSet hub.metrics.counters "errors.total"
               ((dictGet hub.metrics.counters "errors.total").getD 0 + 1))
             ("errors." ++ name)
             ((dictGet (dictSet hub.metrics.counters "errors.total"
                 ((dictGet hub.metrics.counters "errors.total").getD 0 + 1))
               ("errors." ++ name)).getD 0 + 1),
           false⟩ } net now dateStr .SCRIPT_FAILED name
        ("Script failed: " ++ name ++ " - " ++ errMsg)
        (some [("duration", PyVal.str "unknown"), ("error", PyVal.str errMsg)])
        .ERROR true := by
    rw [scriptFailed, dictPop_of_absent _ _ hs]
    simp [increment_unlocked, hm, getDuration]
  constructor
  · intro hoff
    refine ⟨⟨mkEvent .DIRECTIVE_COMPLETED name ("Completed directive: " ++ name)
              (some [("duration", PyVal.str "unknown")]) .SUCCESS now, ?_, rfl, ?_⟩,
            ⟨mkEvent .DIRECTIVE_FAILED name
              ("Failed directive: " ++ name ++ " - " ++ errMsg)
              (some [("duration", PyVal.str "unknown"), ("error", PyVal.str errMsg),
                     ("error_type", PyVal.str errTypeName)]) .ERROR now, ?_, rfl, ?_⟩,
            ⟨mkEvent .SCRIPT_COMPLETED name ("Completed script: " ++ name)
              (some [("duration", PyVal.str "unknown")]) .SUCCESS now, ?_, rfl, ?_⟩,
            ⟨mkEvent .SCRIPT_FAILED name
              ("Script failed: " ++ name ++ " - " ++ errMsg)
              (some [("duration", PyVal.str "unknown"), ("error", PyVal.str errMsg)])
              .ERROR now, ?_, rfl, ?_⟩⟩
    · rw [hdc, emit_slack_skipped _ _ _ _ _ _ _ _ _ _ (by simp [hoff])]
    · simp [mkEvent, dictGet]
    · rw [hdf, emit_slack_skipped _ _ _ _ _ _ _ _ _ _ (by simp [hoff])]
    · simp [mkEvent, dictGet]
    · rw [hsc, emit_slack_skipped _ _ _ _ _ _ _ _ _ _ (by simp [hoff])]
    · simp [mkEvent, dictGet]
    · rw [hsf, emit_slack_skipped _ _ _ _ _ _ _ _ _ _ (by simp [hoff])]
    · simp [mkEvent, dictGet]
  · intro hon
    rw [hdc, emit_slack_error _ _ _ _ _ _ _ _ _ _ (by simp [hon])]

/-- Witness for C7: a never-started directive name on a slack-enabled
fresh hub makes directive_completed raise (the modelled AttributeError). -/
theorem terminal_without_start_witness :
    (directiveCompleted { testHub with slackEnabled := true } netOk 0 "2026-01-01"
        "never_started" Option.none).1 = .error (.attributeError "type") :=
  (terminal_without_start { testHub with slackEnabled := true } netOk 0 "2026-01-01"
    "never_started" "" "" rfl rfl rfl).2 rfl

/-- Witness for C10 at a fresh hub with a True boolean metric. -/
theorem script_completed_records_bool_witness :
    dictGet (scriptCompleted testHub netOk 0 "2026-01-01" "s"
        (some [("k", PyVal.bool true)])).2.1.metrics.metrics ("s" ++ "." ++ "k") =
      some [if true then (1 : ℚ) else 0] :=
  script_completed_records_bool testHub netOk 0 "2026-01-01" "s" "k" true rfl rfl

/-! ## Claims about the EventLogger -/

theorem logSeq_content (dateStr : String) (rs : List EventRecord) :
    ∀ (fs : LogFS) (cur : List EventRecord),
      dictGet fs (logFileName dateStr) = some cur →
      dictGet (logSeq fs dateStr rs) (logFileName dateStr) = some (cur ++ rs) := by
  induction rs with
  | nil =>
      intro fs cur h
      simpa [logSeq]
  | cons r rest ih =>
      intro fs cur h
      have hstep : logRecord fs dateStr r =
          dictSet fs (logFileName dateStr) (cur ++ [r]) := by
        simp [logRecord, h]
      have hseq : logSeq fs dateStr (r :: rest) =
          logSeq (logRecord fs dateStr r) dateStr rest := rfl
      rw [hseq, hstep,
          ih (dictSet fs (logFileName dateStr) (cur ++ [r])) (cur ++ [r])
            (dictGet_dictSet_self _ _ _)]
      simp

/-- C8: get_events for a day with no log file returns the empty list
rather than raising; and after logging any sequence of records to a fresh
day, filtering by an event type returns exactly those records whose type
field matches, in the original file order. -/
theorem get_events_spec (fs : LogFS) (dateStr : String) (et : EventType)
    (rs : List EventRecord)
    (h : dictGet fs (logFileName dateStr) = Option.none) :
    getEvents fs dateStr Option.none Option.none = [] ∧
    getEvents fs dateStr (some et) Option.none = [] ∧
    getEvents (logSeq fs dateStr rs) dateStr (some et) Option.none =
      rs.filter (fun r => r.rtype == et.value) := by
  refine ⟨by simp [getEvents, h], by simp [getEvents, h], ?_⟩
  cases rs with
  | nil => simp [logSeq, getEvents, h]
  | cons r rest =>
      have h1 : logRecord fs dateStr r = dictSet fs (logFileName dateStr) [r] := by
        simp [logRecord, h]
      have h2 := logSeq_content dateStr rest
        (dictSet fs (logFileName dateStr) [r]) [r] (dictGet_dictSet_self _ _ _)
      have h3 : logSeq fs dateStr (r :: rest) =
          logSeq (logRecord fs dateStr r) dateStr rest := rfl
      rw [getEvents, h3, h1, h2]
      simp [pyTruthyStr]

/-- Witness for C8: three records of two types on a fresh file system,
filtered by type. -/
theorem get_events_witness :
    getEvents (logSeq [] "2026-01-01"
        [⟨"a", "script_started", "s", "m1", [], "INFO", 0⟩,
         ⟨"b", "script_completed", "s", "m2", [], "SUCCESS", 0⟩,
         ⟨"c", "script_started", "t", "m3", [], "INFO", 0⟩])
      "2026-01-01" (some .SCRIPT_STARTED) Option.none =
      List.filter (fun r => r.rtype == EventType.SCRIPT_STARTED.value)
        [⟨"a", "script_started", "s", "m1", [], "INFO", 0⟩,
         ⟨"b", "script_completed", "s", "m2", [], "SUCCESS", 0⟩,
         ⟨"c", "script_started", "t", "m3", [], "INFO", 0⟩] :=
  (get_events_spec [] "2026-01-01" .SCRIPT_STARTED
    [⟨"a", "script_started", "s", "m1", [], "INFO", 0⟩,
     ⟨"b", "script_completed", "s", "m2", [], "SUCCESS", 0⟩,
     ⟨"c", "script_started", "t", "m3", [], "INFO", 0⟩] rfl).2.2

/-! ## Claim about subscriber isolation -/

@[simp]
theorem isSubscriberCall_ok (i : ℕ) :
    isSubscriberCall (SinkCall.subscriberOk i) = true := rfl

@[simp]
theorem isSubscriberCall_err (i : ℕ) (l : String) :
    isSubscriberCall (SinkCall.subscriberErr i l) = true := rfl

@[simp]
theorem isSubscriberCall_console (l : String) :
    isSubscriberCall (SinkCall.console l) = false := rfl

@[simp]
theorem isSubscriberCall_file (f : String) (r : EventRecord) :
    isSubscriberCall (SinkCall.file f r) = false := rfl

@[simp]
theorem isSubscriberCall_webhook (p : Payload) :
    isSubscriberCall (SinkCall.webhook p) = false := rfl

@[simp]
theorem isSubscriberCall_slackConsole (l : String) :
    isSubscriberCall (SinkCall.slackConsole l) = false := rfl

theorem runSub_filter_nonsub (subs : List Subscriber) (i : ℕ) (e : Event) :
    (runSubscribersFrom i e subs).filter (fun c => !isSubscriberCall c) = [] := by
  induction subs generalizing i with
  | nil => rfl
  | cons s rest ih =>
      cases hse : s e <;> simp [runSubscribersFrom, hse, ih]

theorem runSub_count (subs : List Subscriber) (i : ℕ) (e : Event) :
    ((runSubscribersFrom i e subs).filter (fun c => isSubscriberCall c)).length =
      subs.length := by
  induction subs generalizing i with
  | nil => rfl
  | cons s rest ih =>
      cases hse : s e <;> simp [runSubscribersFrom, hse, ih]

theorem runSub_err_mem (subs : List Subscriber) (e : Event) (m : String) :
    ∀ (i₀ i : ℕ) (s : Subscriber), subs.get? i = some s → s e = some m →
      SinkCall.subscriberErr (i₀ + i) ("[OBSERVABILITY] Subscriber error: " ++ m) ∈
        runSubscribersFrom i₀ e subs := by
  induction subs with
  | nil =>
      intro i₀ i s hget
      simp at hget
  | cons t rest ih =>
      intro i₀ i s hget hse
      cases i with
      | zero =>
          simp only [List.get?_cons_zero, Option.some.injEq] at hget
          subst hget
          simp [runSubscribersFrom, hse]
      | succ j =>
          simp only [List.get?_cons_succ] at hget
          have hmem := ih (i₀ + 1) j s hget hse
          have harith : i₀ + (j + 1) = (i₀ + 1) + j := by omega
          rw [harith]
          cases hte : t e <;> simp [runSubscribersFrom, hte, hmem]

theorem emitPreTrace_filter_sub (hub : Hub) (dateStr : String) (e : Event) :
    (emitPreTrace hub dateStr e).filter (fun c => isSubscriberCall c) = [] := by
  by_cases hc : hub.consoleEnabled <;> by_cases hf : hub.fileEnabled <;>
    simp [emitPreTrace, hc, hf, isSubscriberCall]

/-- C9: subscriber callbacks cannot affect an emit call: the returned
value, the file-system effect, and the non-subscriber sink calls are the
same for any two subscriber lists; when emit returns the constructed
Event, every subscriber was invoked, and a subscriber that raised had its
error caught and logged as a console line in the trace rather than
propagated. -/
theorem emit_subscriber_isolation (hub : Hub) (net : Net) (now : ℚ) (dateStr : String)
    (event_type : EventType) (source message : String) (data : Option Dict)
    (level : NotificationLevel) (ns : Bool) (s1 s2 : List Subscriber) :
    ((emit { hub with subscribers := s1 } net now dateStr event_type source message
        data level ns).1 =
      (emit { hub with subscribers := s2 } net now dateStr event_type source message
        data level ns).1) ∧
    ((emit { hub with subscribers := s1 } net now dateStr event_type source message
        data level ns).2.1.logFS =
      (emit { hub with subscribers := s2 } net now dateStr event_type source message
        data level ns).2.1.logFS) ∧
    ((emit { hub with subscribers := s1 } net now dateStr event_type source message
        data level ns).2.2.filter (fun c => !isSubscriberCall c) =
      (emit { hub with subscribers := s2 } net now dateStr event_type source message
        data level ns).2.2.filter (fun c => !isSubscriberCall c)) ∧
    (∀ e, (emit { hub with subscribers := s1 } net now dateStr event_type source message
        data level ns).1 = .ok e →
      ((emit { hub with subscribers := s1 } net now dateStr event_type source message
        data level ns).2.2.filter (fun c => isSubscriberCall c)).length = s1.length) ∧
    (∀ e, (emit { hub with subscribers := s1 } net now dateStr event_type source message
        data level ns).1 = .ok e →
      ∀ (i : ℕ) (s : Subscriber), s1.get? i = some s → ∀ m, s e = some m →
        SinkCall.subscriberErr i ("[OBSERVABILITY] Subscriber error: " ++ m) ∈
          (emit { hub with subscribers := s1 } net now dateStr event_type source message
            data level ns).2.2) := by
  by_cases hcond : (ns && hub.slackEnabled) = true
  · rw [emit_slack_error { hub with subscribers := s1 } net now dateStr event_type
        source message data level ns (by simpa using hcond),
        emit_slack_error { hub with subscribers := s2 } net now dateStr event_type
        source message data level ns (by simpa using hcond)]
    refine ⟨rfl, rfl, rfl, ?_, ?_⟩
    · intro e he
      simp at he
    · intro e he
      simp at he
  · have hfalse : (ns && hub.slackEnabled) = false := Bool.of_not_eq_true hcond
    rw [emit_slack_skipped { hub with subscribers := s1 } net now dateStr event_type
        source message data level ns (by simpa using hfalse),
        emit_slack_skipped { hub with subscribers := s2 } net now dateStr event_type
        source message data level ns (by simpa using hfalse)]
    refine ⟨rfl, rfl, ?_, ?_, ?_⟩
    · simp [List.filter_append, runSub_filter_nonsub, emitPreTrace]
    · intro e he
      simp [List.filter_append, emitPreTrace_filter_sub, runSub_count]
    · intro e he i s hget m hse
      have he2 : Except.ok (mkEvent event_type source message data level now) =
          Except.ok e := he
      injection he2 with he3
      subst he3
      refine List.mem_append_right _ ?_
      simpa using runSub_err_mem s1
        (mkEvent event_type source message data level now) m 0 i s hget hse

/-- Witness for C9: one raising subscriber next to an empty list on the
test hub; the raised error shows up caught in the trace. -/
theorem emit_subscriber_isolation_witness :
    SinkCall.subscriberErr 0 ("[OBSERVABILITY] Subscriber error: " ++ "boom") ∈
      (emit { testHub with subscribers := [fun _ => some "boom"] } netOk 0 "2026-01-01"
        .TASK_PROGRESS "s" "m" Option.none .INFO true).2.2 :=
  (emit_subscriber_isolation testHub netOk 0 "2026-01-01" .TASK_PROGRESS "s" "m"
      Option.none .INFO true [fun _ => some "boom"] []).2.2.2.2
    (mkEvent .TASK_PROGRESS "s" "m" Option.none .INFO 0) rfl 0 (fun _ => some "boom")
    rfl "boom" rfl

end Obs
